import Mathlib

/-!
Verification of the Chrome history analyzer pipeline: the Python sources
chrome_history_analyzer.py, daily_summary.py and llm_integration.py are
shallowly embedded below.  pandas data frames become lists of records,
groupby/size becomes counting over deduplicated keys with the keys sorted
ascending (pandas sorts group keys by default), and process-level effects
such as temporary files, process exit, subprocess invocations, environment
variables and HTTP calls are modelled by explicit world and outcome types.
All definitions are executable.
-/

/-- A calendar date, as produced by pandas dt.date. -/
structure Date where
  year : Nat
  month : Nat
  day : Nat
deriving DecidableEq

/-- Numeric key realising the calendar order on dates: year, then month,
then day.  Strictly monotone on real dates because month is at most 12 and
day at most 31. -/
def dateKey (d : Date) : Nat := d.year * 10000 + d.month * 100 + d.day

/-- Order in which groupby on the date column lists its group keys. -/
def dateLe (a b : Date) : Prop := dateKey a ≤ dateKey b

instance : DecidableRel dateLe := fun a b => Nat.decLe (dateKey a) (dateKey b)

/-- A timezone-local timestamp as stored in the visit_time column.  The
hour, minute and second components of a datetime always lie in [0,24) and
[0,60), which the Fin types record. -/
structure Timestamp where
  date : Date
  hour : Fin 24
  minute : Fin 60
  second : Fin 60
deriving DecidableEq

/-- Chronological key of a timestamp, realising datetime comparison. -/
def tsKey (t : Timestamp) : Nat :=
  ((dateKey t.date * 24 + t.hour.val) * 60 + t.minute.val) * 60 + t.second.val

/-- pandas min over a series of timestamps; none on an empty series. -/
def minTimestamp : List Timestamp → Option Timestamp
  | [] => none
  | t :: ts => some (ts.foldl (fun a b => if tsKey b < tsKey a then b else a) t)

/-- pandas max over a series of timestamps; none on an empty series. -/
def maxTimestamp : List Timestamp → Option Timestamp
  | [] => none
  | t :: ts => some (ts.foldl (fun a b => if tsKey a < tsKey b then b else a) t)

/-- Weekday names as produced by pandas dt.day_name, indexed with
0 = Sunday, matching the congruence computed in day_name below. -/
def weekdayNames : List String :=
  ["Sunday", "Monday", "Tuesday", "Wednesday", "Thursday", "Friday", "Saturday"]

/-- The day_of_week column (dt.day_name): weekday of a Gregorian date,
computed with Sakamoto's congruence. -/
def day_name (dt : Date) : String :=
  let t : List Nat := [0, 3, 2, 5, 0, 3, 5, 1, 4, 6, 2, 4]
  let y : Int := if dt.month < 3 then (dt.year : Int) - 1 else (dt.year : Int)
  let idx : Int :=
    (y + y / 4 - y / 100 + y / 400 + (t.getD (dt.month - 1) 0 : Int) + (dt.day : Int)) % 7
  weekdayNames.getD idx.toNat ""

/-- The domain column (urlparse(url).netloc): the authority component of
the URL, between the first occurrence of the double slash and the next
slash, question mark or hash sign; empty when the URL has no double
slash. -/
def urlNetloc (u : String) : String :=
  match u.splitOn "//" with
  | _ :: rest :: _ =>
      String.mk (rest.data.takeWhile fun c => !(c == '/') && !(c == '?') && !(c == '#'))
  | _ => ""

/-- One row of the extractor's data frame.  The columns day_of_week and
domain are the derived columns the extractor adds; hour and date are
recomputed from visit_time below, mirroring dt.hour and dt.date. -/
structure VisitRecord where
  visit_time : Timestamp
  url : String
  title : String
  duration_seconds : Nat
  day_of_week : String
  domain : String
deriving DecidableEq

/-- The hour column (visit_time dt.hour). -/
def VisitRecord.hour (r : VisitRecord) : Nat := r.visit_time.hour.val

/-- The date column (visit_time dt.date). -/
def VisitRecord.date (r : VisitRecord) : Date := r.visit_time.date

/-- Kernel-reducible lexicographic order on character lists, by code
point.  Used to model the ascending order in which pandas lists string
group keys. -/
def charListLe : List Char → List Char → Bool
  | [], _ => true
  | _ :: _, [] => false
  | a :: as, b :: bs =>
    if a.toNat < b.toNat then true
    else if b.toNat < a.toNat then false
    else charListLe as bs

/-- Lexicographic order on strings, by code point. -/
def strLe (a b : String) : Prop := charListLe a.data b.data = true

instance : DecidableRel strLe :=
  fun a b => instDecidableEqBool (charListLe a.data b.data) true

/-- Ascending order on the hour column. -/
def natLe (a b : Nat) : Prop := a ≤ b

instance : DecidableRel natLe := fun a b => Nat.decLe a b

/-- Size of one group of a groupby: the number of rows whose key equals
k. -/
def groupSize {α β : Type} [DecidableEq β] (keyf : α → β) (k : β) (xs : List α) : Nat :=
  (xs.filter fun x => keyf x == k).length

/-- groupby(col).size().reset_index: one (key, count) row per distinct
key of the column, keys listed ascending as pandas does. -/
def groupCounts {α β : Type} [DecidableEq β] (le : β → β → Prop) [DecidableRel le]
    (keyf : α → β) (xs : List α) : List (β × Nat) :=
  (List.insertionSort le (xs.map keyf).dedup).map fun k => (k, groupSize keyf k xs)

/-- Sum of the count column of a grouped result. -/
def sumCounts {β : Type} (l : List (β × Nat)) : Nat := (l.map Prod.snd).sum

/-- Row order of the intended domain sort: by count, descending. -/
def countDescRel (a b : String × Nat) : Prop := b.2 ≤ a.2

instance : DecidableRel countDescRel := fun a b => Nat.decLe b.2 a.2

instance : IsTotal (String × Nat) countDescRel := ⟨fun a b => Nat.le_total b.2 a.2⟩

instance : IsTrans (String × Nat) countDescRel :=
  ⟨fun _ _ _ h1 h2 => Nat.le_trans h2 h1⟩

/-- The intended sort of the per-domain counts: descending by count. -/
def sortByCountDesc (l : List (String × Nat)) : List (String × Nat) :=
  List.insertionSort countDescRel l

/-- pandas Series.mean: the arithmetic mean as an exact rational; none
models the NaN pandas yields for the mean of an empty series. -/
def meanQ : List Nat → Option ℚ
  | [] => none
  | h :: t => some (((h :: t).map (fun x : Nat => (x : ℚ))).sum / ((h :: t).length : ℚ))

/-- The distinct calendar dates present in the frame, ascending: the group
keys of groupby(date). -/
def dates_of (df : List VisitRecord) : List Date :=
  List.insertionSort dateLe (df.map VisitRecord.date).dedup

/-- Per distinct date, the hour of the earliest visit of that date: the
first_hour column derived from first_browse = min(visit_time). -/
def first_hours (df : List VisitRecord) : List Nat :=
  (dates_of df).filterMap fun d =>
    (minTimestamp ((df.filter fun r => r.date == d).map VisitRecord.visit_time)).map
      fun t => t.hour.val

/-- Per distinct date, the hour of the latest visit of that date: the
last_hour column derived from last_browse = max(visit_time). -/
def last_hours (df : List VisitRecord) : List Nat :=
  (dates_of df).filterMap fun d =>
    (maxTimestamp ((df.filter fun r => r.date == d).map VisitRecord.visit_time)).map
      fun t => t.hour.val

/-- The dictionary returned by analyze_browsing_patterns. -/
structure AnalysisResult where
  hourly_activity : List (Nat × Nat)
  daily_activity : List (String × Nat)
  top_domains : List (String × Nat)
  avg_first_hour : Option ℚ
  avg_last_hour : Option ℚ
deriving DecidableEq

/-- The TypeError raised on line 130 of chrome_history_analyzer.py:
pandas DataFrame.sort_values has no keyword named descending (the
descending toggle is spelled ascending=False), so the call fails before
sorting anything. -/
def sortValuesDescendingKeywordError : String :=
  "TypeError: sort_values() got an unexpected keyword argument descending"

/-- Line 130 as written in the source: sort_values(count, descending=True).
No pandas version accepts a keyword named descending, so the call raises a
TypeError for every input, whatever the frame holds. -/
def sort_values_descending_kw (_l : List (String × Nat)) :
    Except String (List (String × Nat)) :=
  Except.error sortValuesDescendingKeywordError

/-- analyze_browsing_patterns exactly as written in the source: the hour
and weekday groupbys are formed, then the domain sort on line 130 raises a
TypeError, so the function never returns a dictionary. -/
def analyze_browsing_patterns (df : List VisitRecord) :
    Except String AnalysisResult := do
  let hourly_activity := groupCounts natLe VisitRecord.hour df
  let daily_activity := groupCounts strLe VisitRecord.day_of_week df
  let domain_counts ← sort_values_descending_kw
    (groupCounts strLe VisitRecord.domain df)
  pure {
    hourly_activity := hourly_activity
    daily_activity := daily_activity
    top_domains := domain_counts.take 20
    avg_first_hour := meanQ (first_hours df)
    avg_last_hour := meanQ (last_hours df) }

/-- analyze_browsing_patterns with the keyword slip of line 130 corrected
to its evident intent (ascending=False, cf. the spec design notes): the
per-domain counts are sorted descending by count and the first 20 kept.
This is the only difference from analyze_browsing_patterns. -/
def analyze_browsing_patterns_fixed (df : List VisitRecord) : AnalysisResult :=
  let domain_counts := sortByCountDesc (groupCounts strLe VisitRecord.domain df)
  { hourly_activity := groupCounts natLe VisitRecord.hour df
    daily_activity := groupCounts strLe VisitRecord.day_of_week df
    top_domains := domain_counts.take 20
    avg_first_hour := meanQ (first_hours df)
    avg_last_hour := meanQ (last_hours df) }

/-- Newline used between rendered table rows. -/
def newlineStr : String := "\n"

/-- Column separator of the simplified table rendering. -/
def spaceStr : String := " "

/-- Header of the rendered hourly activity table. -/
def hourlyHeader : String := "hour count"

/-- Header of the rendered top domains table. -/
def domainsHeader : String := "domain count"

/-- Header of the rendered sample table. -/
def sampleHeader : String := "visit_time title url"

/-- DataFrame.to_string of the hourly activity frame: a header row then
one row per hour present.  Column alignment is simplified to a single
separator; the rendered content and row order are those of the frame. -/
def renderHourlyTable (l : List (Nat × Nat)) : String :=
  String.intercalate newlineStr
    (hourlyHeader :: l.map fun r => toString r.1 ++ spaceStr ++ toString r.2)

/-- DataFrame.to_string of the top domains frame. -/
def renderDomainsTable (l : List (String × Nat)) : String :=
  String.intercalate newlineStr
    (domainsHeader :: l.map fun r => r.1 ++ spaceStr ++ toString r.2)

/-- Two-digit zero padding for date and time components. -/
def pad2 (n : Nat) : String := if n < 10 then "0" ++ toString n else toString n

/-- Decimal rendering of a number of hundredths, with two digits after the
point. -/
def hundredthsStr (c : Nat) : String :=
  toString (c / 100) ++ "." ++ pad2 (c % 100)

/-- Python format spec .2f on the averaged hours: two decimal places; NaN
(the empty mean) renders as nan. -/
def format2f : Option ℚ → String
  | none => "nan"
  | some q =>
    let c : Int := round (q * 100)
    if c < 0 then "-" ++ hundredthsStr (Int.toNat (-c)) else hundredthsStr (Int.toNat c)

/-- strftime of a visit_time value. -/
def timestampStr (t : Timestamp) : String :=
  toString t.date.year ++ "-" ++ pad2 t.date.month ++ "-" ++ pad2 t.date.day ++ " " ++
    pad2 t.hour.val ++ ":" ++ pad2 t.minute.val ++ ":" ++ pad2 t.second.val

/-- to_string of the ten most recent rows, restricted to the visit_time,
title and url columns. -/
def renderSampleTable (rows : List VisitRecord) : String :=
  String.intercalate newlineStr
    (sampleHeader ::
      rows.map fun r => timestampStr r.visit_time ++ spaceStr ++ r.title ++ spaceStr ++ r.url)

/-- Fixed prompt text before the hourly table. -/
def promptSeg1 : String :=
  "\n    Analyze this Chrome browsing history data:\n    \n    1. Hourly activity pattern:\n    "

/-- Fixed prompt text before the domains table. -/
def promptSeg2 : String := "\n    \n    2. Top domains visited:\n    "

/-- Fixed prompt text before the average first hour. -/
def promptSeg3 : String := "\n    \n    3. Average first browsing hour: "

/-- Fixed prompt text before the average last hour. -/
def promptSeg4 : String := "\n    4. Average last browsing hour: "

/-- Fixed prompt text before the sample rows. -/
def promptSeg5 : String := "\n    \n    5. Sample of recent URLs and titles:\n    "

/-- Fixed closing prompt text. -/
def promptSeg6 : String :=
  "\n    \n    Based on this data, please provide insights about:\n    1. Sleep patterns (when the person likely wakes up and goes to sleep)\n    2. Work focus and productivity patterns\n    3. Main interests based on content\n    4. Recommendations for better time management\n    "

/-- generate_llm_prompt: a pure function of the analysis dictionary and
the frame.  The source interpolates only these two arguments into the
f-string; in particular no clock or random value enters the text (unlike
the markdown report of save_output, which embeds datetime.now). -/
def generate_llm_prompt (analysis_results : AnalysisResult) (df : List VisitRecord) : String :=
  promptSeg1 ++ renderHourlyTable analysis_results.hourly_activity ++
  promptSeg2 ++ renderDomainsTable analysis_results.top_domains ++
  promptSeg3 ++ format2f analysis_results.avg_first_hour ++
  promptSeg4 ++ format2f analysis_results.avg_last_hour ++
  promptSeg5 ++ renderSampleTable (df.take 10) ++
  promptSeg6

/-- One row returned by the SQL query of the extractor, before the derived
columns are added. -/
structure RawRow where
  visit_time : Timestamp
  url : String
  title : String
  duration_seconds : Nat
deriving DecidableEq

/-- Lines 95 to 98: the derived columns added to a queried row. -/
def enrich (r : RawRow) : VisitRecord :=
  { visit_time := r.visit_time
    url := r.url
    title := r.title
    duration_seconds := r.duration_seconds
    day_of_week := day_name r.visit_time.date
    domain := urlNetloc r.url }

/-- Outcome of the shutil.copy2 call: success, an exception raised after
the destination file appeared, or an exception raised before any file was
created. -/
inductive CopyOutcome
  | ok
  | raisedAfterCreate (msg : String)
  | raisedBeforeCreate (msg : String)
deriving DecidableEq

/-- Outcome of the SQL query against the copied database. -/
inductive QueryOutcome
  | ok (rows : List RawRow)
  | sqliteError (msg : String)
  | otherError (msg : String)
deriving DecidableEq

/-- The environment one invocation of the extractor runs in. -/
structure ExtractWorld where
  sourceExists : Bool
  copyOutcome : CopyOutcome
  queryOutcome : QueryOutcome
deriving DecidableEq

/-- How the extractor ends: a returned frame, or process termination via
sys.exit with an exit code and the diagnostics printed before it. -/
inductive ExtractOutcome
  | success (df : List VisitRecord)
  | exitProcess (code : Nat) (diagnostics : List String)
deriving DecidableEq

/-- Observable trace of one extractor invocation: how many temporary
copies were created and removed, whether one remains afterwards, and how
the invocation ended. -/
structure ExtractTrace where
  tempCreated : Nat
  tempRemoved : Nat
  tempRemains : Bool
  outcome : ExtractOutcome
deriving DecidableEq

/-- Line 55 diagnostic. -/
def historyNotFoundMsg : String := "Chrome history database not found"

/-- Line 56 diagnostic. -/
def checkChromeMsg : String := "Please check if Chrome is installed or if the path is correct."

/-- Line 103 diagnostic. -/
def sqliteErrorMsg (e : String) : String := "SQLite error: " ++ e

/-- Line 106 diagnostic. -/
def genericErrorMsg (e : String) : String := "Error: " ++ e

/-- extract_chrome_history, lines 41 to 111.  The missing-source check
precedes the try block, so it exits before any temporary copy exists; the
finally clause removes the temporary copy whenever it exists, on success
and on both except paths; sys.exit raises SystemExit, which the except
clauses do not catch, so the exit code survives the finally clause. -/
def extract_chrome_history (w : ExtractWorld) : ExtractTrace :=
  if w.sourceExists = false then
    { tempCreated := 0, tempRemoved := 0, tempRemains := false
      outcome := ExtractOutcome.exitProcess 1 [historyNotFoundMsg, checkChromeMsg] }
  else
    match w.copyOutcome with
    | CopyOutcome.raisedBeforeCreate e =>
        { tempCreated := 0, tempRemoved := 0, tempRemains := false
          outcome := ExtractOutcome.exitProcess 1 [genericErrorMsg e] }
    | CopyOutcome.raisedAfterCreate e =>
        { tempCreated := 1, tempRemoved := 1, tempRemains := false
          outcome := ExtractOutcome.exitProcess 1 [genericErrorMsg e] }
    | CopyOutcome.ok =>
        match w.queryOutcome with
        | QueryOutcome.ok rows =>
            { tempCreated := 1, tempRemoved := 1, tempRemains := false
              outcome := ExtractOutcome.success (rows.map enrich) }
        | QueryOutcome.sqliteError e =>
            { tempCreated := 1, tempRemoved := 1, tempRemains := false
              outcome := ExtractOutcome.exitProcess 1 [sqliteErrorMsg e] }
        | QueryOutcome.otherError e =>
            { tempCreated := 1, tempRemoved := 1, tempRemains := false
              outcome := ExtractOutcome.exitProcess 1 [genericErrorMsg e] }

/-- The environment one invocation of generate_daily_summary runs in:
exit status of the analyzer subprocess, state of the report file it is
expected to produce, the analyze flag, exit status of the LLM subprocess
and the state of the insights file it may produce. -/
structure DailyWorld where
  analyzerRunOk : Bool
  reportFileExists : Bool
  reportContent : String
  analyzeFlag : Bool
  llmRunOk : Bool
  insightsFileExists : Bool
  insightsContent : String
deriving DecidableEq

/-- How generate_daily_summary ends: an uncaught exception propagating
out of the function, or a normal return. -/
inductive DailyOutcome
  | raised (msg : String)
  | returned
deriving DecidableEq

/-- subprocess.run with check set raises this when the child exits with a
non-zero status. -/
def calledProcessErrorMsg : String := "CalledProcessError"

/-- Line 39 diagnostic of daily_summary.py. -/
def outputNotFoundMsg : String := "Output file not found: output/chrome_history_report.md"

/-- Observable result of one generate_daily_summary invocation. -/
structure DailyResult where
  outcome : DailyOutcome
  printedNotFound : Bool
  archivedReport : Option String
  archivedInsights : Option String
deriving DecidableEq

/-- generate_daily_summary, lines 24 to 74 of daily_summary.py.  When the
report file is missing after the analyzer subprocess, line 39 prints a
diagnostic and line 40 returns normally; nothing is raised. -/
def generate_daily_summary (w : DailyWorld) : DailyResult :=
  if w.analyzerRunOk = false then
    { outcome := DailyOutcome.raised calledProcessErrorMsg
      printedNotFound := false, archivedReport := none, archivedInsights := none }
  else if w.reportFileExists = false then
    { outcome := DailyOutcome.returned
      printedNotFound := true, archivedReport := none, archivedInsights := none }
  else if w.analyzeFlag = true then
    if w.llmRunOk = false then
      { outcome := DailyOutcome.raised calledProcessErrorMsg
        printedNotFound := false, archivedReport := some w.reportContent
        archivedInsights := none }
    else if w.insightsFileExists = true then
      { outcome := DailyOutcome.returned
        printedNotFound := false, archivedReport := some w.reportContent
        archivedInsights := some w.insightsContent }
    else
      { outcome := DailyOutcome.returned
        printedNotFound := false, archivedReport := some w.reportContent
        archivedInsights := none }
  else
    { outcome := DailyOutcome.returned
      printedNotFound := false, archivedReport := some w.reportContent
      archivedInsights := none }

/-- The backend selected by the provider command line option of
llm_integration.py.  The third CLI value, named local there, is spelled
localLLM here because local is a reserved word in Lean. -/
inductive Provider
  | openai
  | anthropic
  | localLLM
deriving DecidableEq

/-- Outcome of a hosted API call once it is attempted. -/
inductive ApiCallResult
  | ok (text : String)
  | exn (msg : String)
deriving DecidableEq

/-- Environment of a hosted backend: whether its client package imports,
the credential environment variable, and what the call would return. -/
structure ApiEnv where
  importOk : Bool
  apiKey : Option String
  callOutcome : ApiCallResult
deriving DecidableEq

/-- Python truthiness of an optional string: None and the empty string are
falsy. -/
def truthyStr : Option String → Bool
  | none => false
  | some s => !(s == "")

/-- analyze_with_openai, lines 21 to 53 of llm_integration.py: None when
the import fails, when the credential is absent or empty, or when the API
call raises; otherwise the returned message text. -/
def analyze_with_openai (env : ApiEnv) (_prompt : String) : Option String :=
  if env.importOk = false then none
  else if truthyStr env.apiKey = false then none
  else
    match env.callOutcome with
    | ApiCallResult.ok text => some text
    | ApiCallResult.exn _ => none

/-- analyze_with_anthropic, lines 55 to 90: same shape as the OpenAI
backend. -/
def analyze_with_anthropic (env : ApiEnv) (_prompt : String) : Option String :=
  if env.importOk = false then none
  else if truthyStr env.apiKey = false then none
  else
    match env.callOutcome with
    | ApiCallResult.ok text => some text
    | ApiCallResult.exn _ => none

/-- Outcome of the Ollama HTTP request: the requests package missing, an
exception during the request, or an HTTP response with a status code and
the optional response field of its JSON body. -/
inductive OllamaOutcome
  | importError
  | requestException (msg : String)
  | response (status : Nat) (responseField : Option String) (body : String)
deriving DecidableEq

/-- The default string line 122 substitutes when a 200 response carries no
response field. -/
def noResponseMsg : String := "No response from local LLM"

/-- analyze_with_local_llm, lines 92 to 129: None on import failure, on a
request exception and on any non-200 status; on a 200 response the JSON
response field, with noResponseMsg substituted when the field is absent. -/
def analyze_with_local_llm : OllamaOutcome → Option String
  | OllamaOutcome.importError => none
  | OllamaOutcome.requestException _ => none
  | OllamaOutcome.response status field _ =>
      if status = 200 then some (field.getD noResponseMsg) else none

/-- The heading save_insights writes before the insight text. -/
def insightsHeading : String := "# Chrome History Analysis Insights\n\n"

/-- save_insights, lines 131 to 147: the file content written. -/
def save_insights (insights : String) : String := insightsHeading ++ insights

/-- The environment one invocation of the llm_integration main runs in. -/
structure LlmWorld where
  promptFileExists : Bool
  promptContent : String
  provider : Provider
  openaiEnv : ApiEnv
  anthropicEnv : ApiEnv
  ollama : OllamaOutcome
  insightsFile : Option String
deriving DecidableEq

/-- Observable result of one llm_integration main invocation: the insights
value obtained, the content of the insights file afterwards (none if the
file does not exist) and how many times the file was written. -/
structure LlmRunResult where
  insights : Option String
  insightsFileAfter : Option String
  insightsWrites : Nat
deriving DecidableEq

/-- main of llm_integration.py, lines 149 to 187: early return when the
prompt file is missing; otherwise dispatch on the provider; save_insights
runs only when the returned value is truthy, so None and the empty string
both leave the insights file untouched. -/
def llm_main (w : LlmWorld) : LlmRunResult :=
  if w.promptFileExists = false then
    { insights := none, insightsFileAfter := w.insightsFile, insightsWrites := 0 }
  else
    let insights :=
      match w.provider with
      | Provider.openai => analyze_with_openai w.openaiEnv w.promptContent
      | Provider.anthropic => analyze_with_anthropic w.anthropicEnv w.promptContent
      | Provider.localLLM => analyze_with_local_llm w.ollama
    match insights with
    | some s =>
        if s = "" then
          { insights := some s, insightsFileAfter := w.insightsFile, insightsWrites := 0 }
        else
          { insights := some s, insightsFileAfter := some (save_insights s)
            insightsWrites := 1 }
    | none =>
        { insights := none, insightsFileAfter := w.insightsFile, insightsWrites := 0 }

/-- The calendar date of the three-record scenario of the spec. -/
def c2Date : Date := ⟨2024, 1, 1⟩

/-- Scenario record one: domain a.com, hour 9. -/
def c2r1 : VisitRecord :=
  { visit_time := ⟨c2Date, 9, 30, 0⟩
    url := "https://a.com/"
    title := "A1"
    duration_seconds := 10
    day_of_week := day_name c2Date
    domain := "a.com" }

/-- Scenario record two: domain a.com, hour 9 again. -/
def c2r2 : VisitRecord :=
  { visit_time := ⟨c2Date, 9, 5, 0⟩
    url := "https://a.com/x"
    title := "A2"
    duration_seconds := 20
    day_of_week := day_name c2Date
    domain := "a.com" }

/-- Scenario record three: domain b.com, hour 23. -/
def c2r3 : VisitRecord :=
  { visit_time := ⟨c2Date, 23, 50, 0⟩
    url := "https://b.com/"
    title := "B"
    duration_seconds := 30
    day_of_week := day_name c2Date
    domain := "b.com" }

/-- The three-record scenario frame. -/
def c2Records : List VisitRecord := [c2r1, c2r2, c2r3]

/-- A one-row frame used to instantiate universally quantified claims. -/
def sampleRec : VisitRecord :=
  { visit_time := ⟨⟨2024, 2, 3⟩, 10, 0, 0⟩
    url := "https://a.com/y"
    title := "A"
    duration_seconds := 5
    day_of_week := day_name ⟨2024, 2, 3⟩
    domain := "a.com" }

/-- A database error text used in concrete extractor worlds. -/
def dbErrMsg : String := "no such table: visits"

/-- Extractor world whose source database is missing. -/
def wExtractMissing : ExtractWorld :=
  ⟨false, CopyOutcome.ok, QueryOutcome.ok []⟩

/-- Extractor world whose copy succeeds and whose query raises a SQLite
error. -/
def wExtractSqlite : ExtractWorld :=
  ⟨true, CopyOutcome.ok, QueryOutcome.sqliteError dbErrMsg⟩

/-- Daily orchestrator world: the analyzer subprocess exits cleanly but
the expected report file is absent. -/
def wDailyNoReport : DailyWorld :=
  ⟨true, false, "", true, true, false, ""⟩

/-- Insights file content present before the submission step runs. -/
def priorInsights : String := "previous insights"

/-- Submission world: provider openai, credential variable unset, prompt
file present, prior insights file content on disk. -/
def wOpenaiNoKey : LlmWorld :=
  { promptFileExists := true
    promptContent := "analyze this"
    provider := Provider.openai
    openaiEnv := ⟨true, none, ApiCallResult.ok "unused"⟩
    anthropicEnv := ⟨true, none, ApiCallResult.ok "unused"⟩
    ollama := OllamaOutcome.importError
    insightsFile := some priorInsights }

/-- Body text of a concrete Ollama response. -/
def ollamaBody : String := "irrelevant body"

/-- Submission world: provider local, 200 response without a response
field. -/
def wOllama200NoField : LlmWorld :=
  { promptFileExists := true
    promptContent := "analyze this"
    provider := Provider.localLLM
    openaiEnv := ⟨true, none, ApiCallResult.ok "unused"⟩
    anthropicEnv := ⟨true, none, ApiCallResult.ok "unused"⟩
    ollama := OllamaOutcome.response 200 none ollamaBody
    insightsFile := some priorInsights }

/-- Exception text of a concrete failed Ollama request. -/
def connRefusedMsg : String := "connection refused"

/-- Submission world: provider local, request raises. -/
def wOllamaDown : LlmWorld :=
  { promptFileExists := true
    promptContent := "analyze this"
    provider := Provider.localLLM
    openaiEnv := ⟨true, none, ApiCallResult.ok "unused"⟩
    anthropicEnv := ⟨true, none, ApiCallResult.ok "unused"⟩
    ollama := OllamaOutcome.requestException connRefusedMsg
    insightsFile := some priorInsights }

/-- A concrete analysis dictionary used to instantiate the prompt
formatter. -/
def c9Analysis : AnalysisResult :=
  { hourly_activity := [(9, 2), (23, 1)]
    daily_activity := [("Monday", 3)]
    top_domains := [("a.com", 2), ("b.com", 1)]
    avg_first_hour := some 9
    avg_last_hour := some 23 }

/-- Splitting a list by a Boolean predicate preserves its length. -/
theorem filter_length_split {α : Type} (p : α → Bool) (l : List α) :
    (l.filter p).length + (l.filter fun a => !(p a)).length = l.length := by
  induction l with
  | nil => rfl
  | cons a t ih => cases h : p a <;> simp [List.filter_cons, h] <;> omega

/-- The group sizes over a duplicate-free covering key list sum to the
number of rows. -/
theorem sum_groupSizes {α β : Type} [DecidableEq β] (keyf : α → β) (ks : List β) :
    ∀ xs : List α, ks.Nodup → (∀ x ∈ xs, keyf x ∈ ks) →
      (ks.map fun k => groupSize keyf k xs).sum = xs.length := by
  induction ks with
  | nil =>
    intro xs _ hcov
    cases xs with
    | nil => rfl
    | cons a t => exact absurd (hcov a (by simp)) (by simp)
  | cons k ks ih =>
    intro xs hnd hcov
    have hk : k ∉ ks := (List.nodup_cons.mp hnd).1
    have hnd2 : ks.Nodup := (List.nodup_cons.mp hnd).2
    have hrest : ∀ k2 ∈ ks,
        groupSize keyf k2 xs = groupSize keyf k2 (xs.filter fun x => !(keyf x == k)) := by
      intro k2 hk2
      have hne : k2 ≠ k := fun h => hk (h ▸ hk2)
      unfold groupSize
      rw [List.filter_filter]
      apply congrArg List.length
      apply List.filter_congr
      intro x _
      by_cases hx : keyf x = k2
      · simp [hx, hne]
      · simp [hx]
    have hcov2 : ∀ x ∈ (xs.filter fun x => !(keyf x == k)), keyf x ∈ ks := by
      intro x hx
      have hx2 := List.mem_filter.mp hx
      have h1 := hcov x hx2.1
      have h2 : keyf x ≠ k := by simpa using hx2.2
      simpa [h2] using h1
    have hmap : (ks.map fun k2 => groupSize keyf k2 xs)
        = ks.map fun k2 => groupSize keyf k2 (xs.filter fun x => !(keyf x == k)) := by
      apply List.map_congr_left
      intro k2 hk2
      exact hrest k2 hk2
    calc ((k :: ks).map fun k2 => groupSize keyf k2 xs).sum
        = groupSize keyf k xs + (ks.map fun k2 => groupSize keyf k2 xs).sum := by
          simp
      _ = groupSize keyf k xs
            + (ks.map fun k2 => groupSize keyf k2 (xs.filter fun x => !(keyf x == k))).sum := by
          rw [hmap]
      _ = (xs.filter fun x => keyf x == k).length
            + (xs.filter fun x => !(keyf x == k)).length := by
          rw [ih _ hnd2 hcov2]; rfl
      _ = xs.length := filter_length_split _ xs

/-- The count column of a grouped frame sums to the number of rows. -/
theorem sumCounts_groupCounts {α β : Type} [DecidableEq β] (le : β → β → Prop)
    [DecidableRel le] (keyf : α → β) (xs : List α) :
    sumCounts (groupCounts le keyf xs) = xs.length := by
  have h1 : sumCounts (groupCounts le keyf xs)
      = ((List.insertionSort le (xs.map keyf).dedup).map fun k => groupSize keyf k xs).sum := by
    simp only [sumCounts, groupCounts, List.map_map]
    rfl
  rw [h1, ((List.perm_insertionSort le _).map _).sum_eq]
  exact sum_groupSizes keyf _ xs (List.nodup_dedup _)
    fun x hx => List.mem_dedup.mpr (List.mem_map_of_mem keyf hx)

/-- The mean of a nonempty list of hours lies between 0 and 23. -/
theorem meanQ_bounds (hs : List Nat) (hne : hs ≠ []) (hb : ∀ x ∈ hs, x ≤ 23) :
    ∃ q : ℚ, meanQ hs = some q ∧ 0 ≤ q ∧ q ≤ 23 := by
  cases hs with
  | nil => exact absurd rfl hne
  | cons h t =>
    have hlen : (0 : ℚ) < ((h :: t).length : ℚ) := by exact_mod_cast t.length.succ_pos
    have hb2 : ∀ x ∈ (h :: t).map (fun n : Nat => (n : ℚ)), x ≤ 23 := by
      intro x hx
      rw [List.mem_map] at hx
      obtain ⟨n, hn, rfl⟩ := hx
      exact_mod_cast hb n hn
    have hb0 : ∀ x ∈ (h :: t).map (fun n : Nat => (n : ℚ)), 0 ≤ x := by
      intro x hx
      rw [List.mem_map] at hx
      obtain ⟨n, _, rfl⟩ := hx
      exact Nat.cast_nonneg n
    refine ⟨_, rfl, ?_, ?_⟩
    · exact div_nonneg (List.sum_nonneg hb0) (le_of_lt hlen)
    · rw [div_le_iff₀ hlen]
      have hsum := List.sum_le_card_nsmul _ _ hb2
      rw [List.length_map, nsmul_eq_mul] at hsum
      linarith

/-- Membership in the distinct date list. -/
theorem mem_dates_of {df : List VisitRecord} {d : Date} :
    d ∈ dates_of df ↔ ∃ r, r ∈ df ∧ r.date = d := by
  unfold dates_of
  rw [(List.perm_insertionSort dateLe _).mem_iff, List.mem_dedup, List.mem_map]

/-- A filterMap by an everywhere-defined function preserves length. -/
theorem filterMap_length_of_isSome {α β : Type} (f : α → Option β) (l : List α)
    (h : ∀ a ∈ l, (f a).isSome) : (l.filterMap f).length = l.length := by
  induction l with
  | nil => rfl
  | cons a t ih =>
    obtain ⟨b, hb⟩ := Option.isSome_iff_exists.mp (h a (by simp))
    rw [List.filterMap_cons, hb]
    simp only [List.length_cons]
    rw [ih fun x hx => h x (by simp [hx])]

/-- The min of a nonempty series exists. -/
theorem minTimestamp_isSome {l : List Timestamp} (h : l ≠ []) :
    (minTimestamp l).isSome := by
  cases l with
  | nil => exact absurd rfl h
  | cons t ts => rfl

/-- The max of a nonempty series exists. -/
theorem maxTimestamp_isSome {l : List Timestamp} (h : l ≠ []) :
    (maxTimestamp l).isSome := by
  cases l with
  | nil => exact absurd rfl h
  | cons t ts => rfl

/-- The per-date hour column extracted by a selector that is defined on
every nonempty series has one entry per distinct date, every entry at most
23. -/
theorem hoursPerDate_spec (sel : List Timestamp → Option Timestamp)
    (hsel : ∀ l : List Timestamp, l ≠ [] → (sel l).isSome) (df : List VisitRecord) :
    ((dates_of df).filterMap fun d =>
        (sel ((df.filter fun r => r.date == d).map VisitRecord.visit_time)).map
          fun t => t.hour.val).length = (dates_of df).length ∧
    ∀ x ∈ (dates_of df).filterMap fun d =>
        (sel ((df.filter fun r => r.date == d).map VisitRecord.visit_time)).map
          fun t => t.hour.val,
      x ≤ 23 := by
  constructor
  · apply filterMap_length_of_isSome
    intro d hd
    obtain ⟨r, hr, hrd⟩ := mem_dates_of.mp hd
    have hmem : r ∈ df.filter fun r => r.date == d :=
      List.mem_filter.mpr ⟨hr, by simp [hrd]⟩
    have hne : (df.filter fun r => r.date == d).map VisitRecord.visit_time ≠ [] := by
      intro hcon
      rw [List.map_eq_nil_iff] at hcon
      exact List.ne_nil_of_mem hmem hcon
    obtain ⟨t, ht⟩ := Option.isSome_iff_exists.mp (hsel _ hne)
    rw [ht]
    rfl
  · intro x hx
    obtain ⟨d, hd, hfd⟩ := List.mem_filterMap.mp hx
    obtain ⟨t, ht, rfl⟩ := Option.map_eq_some'.mp hfd
    exact Nat.le_of_lt_succ t.hour.isLt

/-- A nonempty frame has at least one distinct date. -/
theorem dates_of_ne_nil {df : List VisitRecord} (h : df ≠ []) : dates_of df ≠ [] := by
  cases df with
  | nil => exact absurd rfl h
  | cons r t =>
    exact List.ne_nil_of_mem (mem_dates_of.mpr ⟨r, by simp, rfl⟩)

/-- The corrected top_domains list is sorted descending by count, holds at
most 20 rows, and every row carries the exact number of visits of its
domain, which is positive. -/
theorem top_domains_spec (df : List VisitRecord) :
    ((analyze_browsing_patterns_fixed df).top_domains).Sorted countDescRel ∧
    (analyze_browsing_patterns_fixed df).top_domains.length ≤ 20 ∧
    ∀ p ∈ (analyze_browsing_patterns_fixed df).top_domains,
      p.2 = (df.filter fun r => r.domain == p.1).length ∧ p.2 ≠ 0 := by
  have htop : (analyze_browsing_patterns_fixed df).top_domains
      = (sortByCountDesc (groupCounts strLe VisitRecord.domain df)).take 20 := rfl
  refine ⟨?_, ?_, ?_⟩
  · rw [htop]
    exact List.Pairwise.sublist (List.take_sublist _ _)
      (List.sorted_insertionSort countDescRel _)
  · rw [htop, List.length_take]
    exact min_le_left _ _
  · intro p hp
    rw [htop] at hp
    have hp1 : p ∈ sortByCountDesc (groupCounts strLe VisitRecord.domain df) :=
      (List.take_sublist _ _).subset hp
    have hp2 : p ∈ groupCounts strLe VisitRecord.domain df :=
      ((List.perm_insertionSort countDescRel _).mem_iff).mp hp1
    unfold groupCounts at hp2
    obtain ⟨k, hk, rfl⟩ := List.mem_map.mp hp2
    refine ⟨rfl, ?_⟩
    have hk2 : k ∈ (df.map VisitRecord.domain).dedup :=
      ((List.perm_insertionSort strLe _).mem_iff).mp hk
    obtain ⟨r, hr, hrk⟩ := List.mem_map.mp (List.mem_dedup.mp hk2)
    have hmem : r ∈ df.filter fun r => r.domain == k :=
      List.mem_filter.mpr ⟨hr, by simp [hrk]⟩
    have hpos : 0 < (df.filter fun r => r.domain == k).length :=
      List.length_pos.mpr (List.ne_nil_of_mem hmem)
    exact Nat.pos_iff_ne_zero.mp hpos

/-- C1: for every nonempty frame the analyzer as written raises the
sort_values TypeError on line 130 and never returns top_domains; on the
model with the keyword corrected to ascending=False the claimed shape
holds: sorted descending by count (hence deterministic, the sort being a
pure function of the grouped frame), truncated to at most 20 rows, each
row carrying the exact per-domain visit count. -/
theorem c1_top_domains_bug (df : List VisitRecord) (_hne : df ≠ []) :
    analyze_browsing_patterns df = Except.error sortValuesDescendingKeywordError ∧
    ((analyze_browsing_patterns_fixed df).top_domains).Sorted countDescRel ∧
    (analyze_browsing_patterns_fixed df).top_domains.length ≤ 20 ∧
    ∀ p ∈ (analyze_browsing_patterns_fixed df).top_domains,
      p.2 = (df.filter fun r => r.domain == p.1).length ∧ p.2 ≠ 0 :=
  ⟨rfl, top_domains_spec df⟩

/-- C1 witness: the statement instantiated at a one-row frame. -/
theorem c1_top_domains_bug_witness :
    ([sampleRec] ≠ ([] : List VisitRecord)) ∧
    (analyze_browsing_patterns [sampleRec] = Except.error sortValuesDescendingKeywordError ∧
     ((analyze_browsing_patterns_fixed [sampleRec]).top_domains).Sorted countDescRel ∧
     (analyze_browsing_patterns_fixed [sampleRec]).top_domains.length ≤ 20 ∧
     ∀ p ∈ (analyze_browsing_patterns_fixed [sampleRec]).top_domains,
       p.2 = ([sampleRec].filter fun r => r.domain == p.1).length ∧ p.2 ≠ 0) :=
  ⟨by simp, c1_top_domains_bug [sampleRec] (by simp)⟩

/-- C2: on the three-record scenario the analyzer as written raises the
sort_values TypeError and returns nothing; with the keyword corrected it
returns exactly the claimed aggregates: hourly counts 9 to 2 and 23 to 1,
top domains a.com with 2 then b.com with 1, average first hour 9 and
average last hour 23. -/
theorem c2_scenario_bug :
    analyze_browsing_patterns c2Records = Except.error sortValuesDescendingKeywordError ∧
    (analyze_browsing_patterns_fixed c2Records).hourly_activity = [(9, 2), (23, 1)] ∧
    (analyze_browsing_patterns_fixed c2Records).top_domains = [("a.com", 2), ("b.com", 1)] ∧
    (analyze_browsing_patterns_fixed c2Records).avg_first_hour = some 9 ∧
    (analyze_browsing_patterns_fixed c2Records).avg_last_hour = some 23 := by
  refine ⟨rfl, by decide, by decide, ?_, ?_⟩
  · have h : first_hours c2Records = [9] := by decide
    show meanQ (first_hours c2Records) = some 9
    rw [h]
    norm_num [meanQ]
  · have h : last_hours c2Records = [23] := by decide
    show meanQ (last_hours c2Records) = some 23
    rw [h]
    norm_num [meanQ]

/-- C3: for every nonempty frame the analyzer as written raises the
sort_values TypeError and returns no counts at all; on the corrected
model the hourly counts and the weekday counts both sum to the number of
rows. -/
theorem c3_count_conservation_bug (df : List VisitRecord) (_hne : df ≠ []) :
    analyze_browsing_patterns df = Except.error sortValuesDescendingKeywordError ∧
    sumCounts (analyze_browsing_patterns_fixed df).hourly_activity = df.length ∧
    sumCounts (analyze_browsing_patterns_fixed df).daily_activity = df.length :=
  ⟨rfl, sumCounts_groupCounts natLe VisitRecord.hour df,
    sumCounts_groupCounts strLe VisitRecord.day_of_week df⟩

/-- C3 witness: the statement instantiated at the three-record frame. -/
theorem c3_count_conservation_bug_witness :
    (c2Records ≠ ([] : List VisitRecord)) ∧
    (analyze_browsing_patterns c2Records = Except.error sortValuesDescendingKeywordError ∧
     sumCounts (analyze_browsing_patterns_fixed c2Records).hourly_activity = 3 ∧
     sumCounts (analyze_browsing_patterns_fixed c2Records).daily_activity = 3) :=
  ⟨by simp [c2Records], c3_count_conservation_bug c2Records (by simp [c2Records])⟩

/-- C4: for every nonempty frame the analyzer as written raises the
sort_values TypeError before returning; on the corrected model the two
averages are means of lists holding exactly one hour per distinct date,
each entry at most 23, both averages exist and lie in [0,23] for nonempty
input, and both are none (NaN) on the empty frame. -/
theorem c4_avg_hours_bug (df : List VisitRecord) (hne : df ≠ []) :
    analyze_browsing_patterns df = Except.error sortValuesDescendingKeywordError ∧
    (analyze_browsing_patterns_fixed []).avg_first_hour = none ∧
    (analyze_browsing_patterns_fixed []).avg_last_hour = none ∧
    (∃ fh lh : List Nat,
      fh.length = (dates_of df).length ∧ lh.length = (dates_of df).length ∧
      (∀ x ∈ fh, x ≤ 23) ∧ (∀ x ∈ lh, x ≤ 23) ∧
      (analyze_browsing_patterns_fixed df).avg_first_hour = meanQ fh ∧
      (analyze_browsing_patterns_fixed df).avg_last_hour = meanQ lh) ∧
    (∃ q1 q2 : ℚ,
      (analyze_browsing_patterns_fixed df).avg_first_hour = some q1 ∧
      0 ≤ q1 ∧ q1 ≤ 23 ∧
      (analyze_browsing_patterns_fixed df).avg_last_hour = some q2 ∧
      0 ≤ q2 ∧ q2 ≤ 23) := by
  obtain ⟨hfl, hfb⟩ := hoursPerDate_spec minTimestamp (fun _ hl => minTimestamp_isSome hl) df
  obtain ⟨hll, hlb⟩ := hoursPerDate_spec maxTimestamp (fun _ hl => maxTimestamp_isSome hl) df
  have hfl2 : (first_hours df).length = (dates_of df).length := hfl
  have hll2 : (last_hours df).length = (dates_of df).length := hll
  have hfb2 : ∀ x ∈ first_hours df, x ≤ 23 := hfb
  have hlb2 : ∀ x ∈ last_hours df, x ≤ 23 := hlb
  have hfh : first_hours df ≠ [] := by
    intro hcon
    rw [hcon] at hfl2
    exact dates_of_ne_nil hne (List.length_eq_zero.mp hfl2.symm)
  have hlh : last_hours df ≠ [] := by
    intro hcon
    rw [hcon] at hll2
    exact dates_of_ne_nil hne (List.length_eq_zero.mp hll2.symm)
  obtain ⟨q1, hq1, hq1a, hq1b⟩ := meanQ_bounds (first_hours df) hfh hfb2
  obtain ⟨q2, hq2, hq2a, hq2b⟩ := meanQ_bounds (last_hours df) hlh hlb2
  exact ⟨rfl, rfl, rfl,
    ⟨first_hours df, last_hours df, hfl2, hll2, hfb2, hlb2, rfl, rfl⟩,
    q1, q2, hq1, hq1a, hq1b, hq2, hq2a, hq2b⟩

/-- C4 witness: the statement instantiated at the three-record frame. -/
theorem c4_avg_hours_bug_witness :
    (c2Records ≠ ([] : List VisitRecord)) ∧
    (analyze_browsing_patterns c2Records = Except.error sortValuesDescendingKeywordError ∧
     (analyze_browsing_patterns_fixed []).avg_first_hour = none ∧
     (analyze_browsing_patterns_fixed []).avg_last_hour = none ∧
     (∃ fh lh : List Nat,
       fh.length = (dates_of c2Records).length ∧ lh.length = (dates_of c2Records).length ∧
       (∀ x ∈ fh, x ≤ 23) ∧ (∀ x ∈ lh, x ≤ 23) ∧
       (analyze_browsing_patterns_fixed c2Records).avg_first_hour = meanQ fh ∧
       (analyze_browsing_patterns_fixed c2Records).avg_last_hour = meanQ lh) ∧
     (∃ q1 q2 : ℚ,
       (analyze_browsing_patterns_fixed c2Records).avg_first_hour = some q1 ∧
       0 ≤ q1 ∧ q1 ≤ 23 ∧
       (analyze_browsing_patterns_fixed c2Records).avg_last_hour = some q2 ∧
       0 ≤ q2 ∧ q2 ≤ 23)) :=
  ⟨by simp [c2Records], c4_avg_hours_bug c2Records (by simp [c2Records])⟩

/-- C5 counterexample: when the source database is missing, the extractor
exits on line 57 before the temporary copy of line 64 exists, so that
invocation creates no temporary copy at all, refuting the claim that
every invocation, the missing-source path included, creates exactly one
and removes it. -/
theorem c5_counterexample :
    ¬ ((extract_chrome_history wExtractMissing).tempCreated = 1 ∧
       (extract_chrome_history wExtractMissing).tempRemoved = 1) := by
  decide

/-- C5 amended: every invocation in which the source database exists and
the copy succeeds creates exactly one temporary copy and removes it
before the invocation ends, on every exit path: successful return, SQLite
error and any other query exception. -/
theorem c5_temp_copy_lifecycle (w : ExtractWorld) (h1 : w.sourceExists = true)
    (h2 : w.copyOutcome = CopyOutcome.ok) :
    (extract_chrome_history w).tempCreated = 1 ∧
    (extract_chrome_history w).tempRemoved = 1 ∧
    (extract_chrome_history w).tempRemains = false := by
  unfold extract_chrome_history
  rw [h1, h2]
  cases w.queryOutcome <;> simp

/-- C5 witness: the amended statement at a concrete world whose query
raises a SQLite error. -/
theorem c5_temp_copy_lifecycle_witness :
    wExtractSqlite.sourceExists = true ∧
    wExtractSqlite.copyOutcome = CopyOutcome.ok ∧
    ((extract_chrome_history wExtractSqlite).tempCreated = 1 ∧
     (extract_chrome_history wExtractSqlite).tempRemoved = 1 ∧
     (extract_chrome_history wExtractSqlite).tempRemains = false) :=
  ⟨rfl, rfl, c5_temp_copy_lifecycle wExtractSqlite rfl rfl⟩

/-- C6: when the source database is missing, or the query fails with a
SQLite error or any other exception, the extractor terminates the process
with exit status 1 after printing at least one diagnostic, and it never
returns a frame. -/
theorem c6_fatal_extraction (w : ExtractWorld)
    (h : w.sourceExists = false ∨
      (w.copyOutcome = CopyOutcome.ok ∧
        ((∃ e, w.queryOutcome = QueryOutcome.sqliteError e) ∨
         (∃ e, w.queryOutcome = QueryOutcome.otherError e)))) :
    ∃ code msgs,
      (extract_chrome_history w).outcome = ExtractOutcome.exitProcess code msgs ∧
      code ≠ 0 ∧ msgs ≠ [] ∧
      ∀ df, (extract_chrome_history w).outcome ≠ ExtractOutcome.success df := by
  have key : ∃ msgs, (extract_chrome_history w).outcome
      = ExtractOutcome.exitProcess 1 msgs ∧ msgs ≠ [] := by
    rcases h with h | ⟨hc, hq⟩
    · refine ⟨[historyNotFoundMsg, checkChromeMsg], ?_, by simp⟩
      unfold extract_chrome_history
      rw [h]
      rfl
    · cases hse : w.sourceExists
      · refine ⟨[historyNotFoundMsg, checkChromeMsg], ?_, by simp⟩
        unfold extract_chrome_history
        rw [hse]
        rfl
      · rcases hq with ⟨e, he⟩ | ⟨e, he⟩
        · refine ⟨[sqliteErrorMsg e], ?_, by simp⟩
          unfold extract_chrome_history
          rw [hse, hc, he]
          rfl
        · refine ⟨[genericErrorMsg e], ?_, by simp⟩
          unfold extract_chrome_history
          rw [hse, hc, he]
          rfl
  obtain ⟨msgs, hmsg, hne⟩ := key
  refine ⟨1, msgs, hmsg, one_ne_zero, hne, ?_⟩
  intro df hcon
  rw [hmsg] at hcon
  exact ExtractOutcome.noConfusion hcon

/-- C6 witness: the statement at a concrete world whose query raises a
SQLite error. -/
theorem c6_fatal_extraction_witness :
    (wExtractSqlite.copyOutcome = CopyOutcome.ok ∧
     wExtractSqlite.queryOutcome = QueryOutcome.sqliteError dbErrMsg) ∧
    ∃ code msgs,
      (extract_chrome_history wExtractSqlite).outcome
        = ExtractOutcome.exitProcess code msgs ∧
      code ≠ 0 ∧ msgs ≠ [] ∧
      ∀ df, (extract_chrome_history wExtractSqlite).outcome
        ≠ ExtractOutcome.success df :=
  ⟨⟨rfl, rfl⟩,
    c6_fatal_extraction wExtractSqlite (Or.inr ⟨rfl, Or.inl ⟨dbErrMsg, rfl⟩⟩)⟩

/-- C7 counterexample: with the analyzer subprocess succeeding but the
report file absent, generate_daily_summary prints a diagnostic and
returns normally; the claim that it does not return normally is false. -/
theorem c7_counterexample :
    ¬ ((generate_daily_summary wDailyNoReport).outcome ≠ DailyOutcome.returned) :=
  fun h => h rfl

/-- C7 amended: when the analyzer subprocess succeeds and the expected
report file is missing, the orchestrator prints the not-found diagnostic,
abandons the rest of the run, archives nothing, and returns normally
without propagating any failure. -/
theorem c7_missing_report_returns (w : DailyWorld) (h1 : w.analyzerRunOk = true)
    (h2 : w.reportFileExists = false) :
    (generate_daily_summary w).outcome = DailyOutcome.returned ∧
    (generate_daily_summary w).printedNotFound = true ∧
    (generate_daily_summary w).archivedReport = none ∧
    (generate_daily_summary w).archivedInsights = none := by
  unfold generate_daily_summary
  rw [h1, h2]
  simp

/-- C7 witness: the amended statement at the concrete missing-report
world. -/
theorem c7_missing_report_returns_witness :
    wDailyNoReport.analyzerRunOk = true ∧
    wDailyNoReport.reportFileExists = false ∧
    ((generate_daily_summary wDailyNoReport).outcome = DailyOutcome.returned ∧
     (generate_daily_summary wDailyNoReport).printedNotFound = true ∧
     (generate_daily_summary wDailyNoReport).archivedReport = none ∧
     (generate_daily_summary wDailyNoReport).archivedInsights = none) :=
  ⟨rfl, rfl, c7_missing_report_returns wDailyNoReport rfl rfl⟩

/-- C8: with provider openai and the credential variable unset, the
submission step yields no insights, performs no write to the insights
file, and leaves its prior content unchanged. -/
theorem c8_openai_no_credential (w : LlmWorld) (hp : w.provider = Provider.openai)
    (hk : w.openaiEnv.apiKey = none) :
    (llm_main w).insights = none ∧
    (llm_main w).insightsFileAfter = w.insightsFile ∧
    (llm_main w).insightsWrites = 0 := by
  have hnone : analyze_with_openai w.openaiEnv w.promptContent = none := by
    cases him : w.openaiEnv.importOk <;>
      simp [analyze_with_openai, him, hk, truthyStr]
  cases hpf : w.promptFileExists <;>
    simp [llm_main, hpf, hp, hnone]

/-- C8 witness: the statement at the concrete credential-less world with
prior insights content on disk. -/
theorem c8_openai_no_credential_witness :
    wOpenaiNoKey.provider = Provider.openai ∧
    wOpenaiNoKey.openaiEnv.apiKey = none ∧
    ((llm_main wOpenaiNoKey).insights = none ∧
     (llm_main wOpenaiNoKey).insightsFileAfter = some priorInsights ∧
     (llm_main wOpenaiNoKey).insightsWrites = 0) :=
  ⟨rfl, rfl, c8_openai_no_credential wOpenaiNoKey rfl rfl⟩

/-- C9: prompt generation is deterministic: the formatter is a pure
function of the analysis dictionary and the frame, so two runs on equal
inputs produce character-identical text. -/
theorem c9_prompt_deterministic (a1 a2 : AnalysisResult) (d1 d2 : List VisitRecord)
    (ha : a1 = a2) (hd : d1 = d2) :
    (generate_llm_prompt a1 d1).data = (generate_llm_prompt a2 d2).data := by
  rw [ha, hd]

/-- C9 witness: the statement at a concrete dictionary and frame. -/
theorem c9_prompt_deterministic_witness :
    c9Analysis = c9Analysis ∧ c2Records = c2Records ∧
    (generate_llm_prompt c9Analysis c2Records).data
      = (generate_llm_prompt c9Analysis c2Records).data :=
  ⟨rfl, rfl, c9_prompt_deterministic c9Analysis c9Analysis c2Records c2Records rfl rfl⟩

/-- C10: the local backend returns none exactly on the exceptional paths
(missing requests package or an exception during the call) and on any
non-200 status; a 200 response whose JSON body lacks the response field
yields the fixed placeholder text, which main then treats as success and
writes, under the standard heading, into the insights file; whenever the
local backend returns none, main writes nothing and leaves the insights
file unchanged. -/
theorem c10_local_llm_placeholder (o : OllamaOutcome) (b : String) (w w2 : LlmWorld)
    (hw : w.promptFileExists = true) (hpv : w.provider = Provider.localLLM)
    (ho : w.ollama = OllamaOutcome.response 200 none b)
    (hw2 : w2.promptFileExists = true) (hpv2 : w2.provider = Provider.localLLM)
    (ho2 : analyze_with_local_llm w2.ollama = none) :
    (analyze_with_local_llm o = none ↔
      o = OllamaOutcome.importError ∨
      (∃ m, o = OllamaOutcome.requestException m) ∨
      ∃ s f bd, o = OllamaOutcome.response s f bd ∧ s ≠ 200) ∧
    analyze_with_local_llm (OllamaOutcome.response 200 none b) = some noResponseMsg ∧
    (llm_main w).insights = some noResponseMsg ∧
    (llm_main w).insightsFileAfter = some (insightsHeading ++ noResponseMsg) ∧
    (llm_main w).insightsWrites = 1 ∧
    (llm_main w2).insightsFileAfter = w2.insightsFile ∧
    (llm_main w2).insightsWrites = 0 := by
  have hmain : llm_main w =
      { insights := some noResponseMsg
        insightsFileAfter := some (save_insights noResponseMsg)
        insightsWrites := 1 } := by
    unfold llm_main
    rw [hw, hpv, ho]
    simp [analyze_with_local_llm, noResponseMsg]
  have hmain2 : llm_main w2 =
      { insights := none
        insightsFileAfter := w2.insightsFile
        insightsWrites := 0 } := by
    unfold llm_main
    rw [hw2, hpv2, ho2]
    simp
  refine ⟨?_, by simp [analyze_with_local_llm], ?_, ?_, ?_, ?_, ?_⟩
  · cases o with
    | importError => simp [analyze_with_local_llm]
    | requestException m => simp [analyze_with_local_llm]
    | response s f bd =>
      by_cases hs : s = 200
      · subst hs
        constructor
        · intro hcon
          simp [analyze_with_local_llm] at hcon
        · rintro (hcon | ⟨m, hcon⟩ | ⟨s2, f2, bd2, heq, hne⟩)
          · exact OllamaOutcome.noConfusion hcon
          · exact OllamaOutcome.noConfusion hcon
          · injection heq with h1 h2 h3
            exact absurd h1.symm hne
      · constructor
        · intro _
          exact Or.inr (Or.inr ⟨s, f, bd, rfl, hs⟩)
        · intro _
          simp [analyze_with_local_llm, hs]
  · rw [hmain]
  · rw [hmain]
    rfl
  · rw [hmain]
  · rw [hmain2]
  · rw [hmain2]

/-- C10 witness: the statement at a failed-request outcome, the concrete
200-without-field world and the concrete request-exception world. -/
theorem c10_local_llm_placeholder_witness :
    (wOllama200NoField.promptFileExists = true ∧
     wOllama200NoField.provider = Provider.localLLM ∧
     wOllama200NoField.ollama = OllamaOutcome.response 200 none ollamaBody ∧
     wOllamaDown.promptFileExists = true ∧
     wOllamaDown.provider = Provider.localLLM ∧
     analyze_with_local_llm wOllamaDown.ollama = none) ∧
    ((analyze_with_local_llm (OllamaOutcome.requestException connRefusedMsg) = none ↔
       OllamaOutcome.requestException connRefusedMsg = OllamaOutcome.importError ∨
       (∃ m, OllamaOutcome.requestException connRefusedMsg
          = OllamaOutcome.requestException m) ∨
       ∃ s f bd, OllamaOutcome.requestException connRefusedMsg
          = OllamaOutcome.response s f bd ∧ s ≠ 200) ∧
     analyze_with_local_llm (OllamaOutcome.response 200 none ollamaBody)
       = some noResponseMsg ∧
     (llm_main wOllama200NoField).insights = some noResponseMsg ∧
     (llm_main wOllama200NoField).insightsFileAfter
       = some (insightsHeading ++ noResponseMsg) ∧
     (llm_main wOllama200NoField).insightsWrites = 1 ∧
     (llm_main wOllamaDown).insightsFileAfter = wOllamaDown.insightsFile ∧
     (llm_main wOllamaDown).insightsWrites = 0) :=
  ⟨⟨rfl, rfl, rfl, rfl, rfl, rfl⟩,
    c10_local_llm_placeholder (OllamaOutcome.requestException connRefusedMsg)
      ollamaBody wOllama200NoField wOllamaDown rfl rfl rfl rfl rfl rfl⟩
